import Mathlib

/-!
# LensKit configuration scripts: `itemitem.js` and `funksvd.js`

The two scripts under `lenskit-knn/etc` and `lenskit-svd/etc` are straight-line
JavaScript.  Each statement is a property assignment `rec.a.b.c = e` on the
configuration object `rec` handed in by the evaluation host.  The right-hand
side is a quoted string, a number, or a bare Java class path (a component
reference that the host resolves).

The statements are embedded as data (`Stmt`), each script as the list of its
statements in written order, and the effect of one statement on the record as
`assign`; `run` executes a list of statements from first to last.

A JavaScript assignment `rec.a.b = e` reads the object stored at `rec.a` and
stores `e` as its property `b`, while `rec.a = e` stores a new value at `rec.a`
itself.  The record is therefore a tree of properties, and it is represented by
the function that sends each path to what is reachable along it.
-/

namespace LensKit

/-- A property path below `rec`: `rec.module.core.baseline` is
`["module", "core", "baseline"]`. -/
abbrev Path := List String

/-- The three kinds of right-hand side occurring in the scripts. -/
inductive Value where
  /-- A quoted string literal, as in `rec.name = "FunkSVD"`. -/
  | str (s : String)
  /-- A numeric literal, as in `rec.module.knn.similarityDamping = 50`. -/
  | num (n : Nat)
  /-- A bare Java class path, as in
  `rec.module = org.grouplens.lenskit.svd.GradientDescentSVDModule`. -/
  | ref (className : String)
  deriving DecidableEq, Repr

/-- Whether the value is a component reference. -/
def Value.isComponentRef : Value → Bool
  | .ref _ => true
  | _ => false

/-- Whether the value is a number. -/
def Value.isNumeric : Value → Bool
  | .num _ => true
  | _ => false

/-- Whether the value is a string literal. -/
def Value.isStringLiteral : Value → Bool
  | .str _ => true
  | _ => false

/-- One assignment statement `rec.<target> = <value>`. -/
structure Stmt where
  target : Path
  value : Value
  deriving DecidableEq, Repr

/-- The statements of `lenskit-knn/etc/itemitem.js`, in written order. -/
def itemitem : List Stmt :=
  [ ⟨["name"], .str "ItemItem"⟩,
    ⟨["module"], .ref "org.grouplens.lenskit.knn.item.ItemRecommenderModule"⟩,
    ⟨["module", "knn", "similarityDamping"], .num 50⟩,
    ⟨["module", "core", "baseline"], .ref "org.grouplens.lenskit.baseline.ItemUserMeanPredictor"⟩ ]

/-- The statements of `lenskit-svd/etc/funksvd.js`, in written order.  The line
`// rec.module.core.meanDamping = 25` is a comment and is not a statement. -/
def funksvd : List Stmt :=
  [ ⟨["name"], .str "FunkSVD"⟩,
    ⟨["module"], .ref "org.grouplens.lenskit.svd.GradientDescentSVDModule"⟩,
    ⟨["module", "core", "baseline"], .ref "org.grouplens.lenskit.baseline.ItemUserMeanPredictor"⟩,
    ⟨["module", "clampingFunction"], .ref "org.grouplens.lenskit.svd.RatingRangeClamp"⟩ ]

/-- The paths assigned by a script, in written order. -/
def targets (script : List Stmt) : List Path := script.map Stmt.target

/-- The configuration record as seen from `rec`: what is reachable along each
property path, `none` where neither the host default nor a statement has set
anything (the setting is then whatever the component itself provides). -/
abbrev Rec := Path → Option Value

/-- The record in which nothing is set. -/
def emptyRec : Rec := fun _ => none

/-- Path `q` lies strictly beneath path `p`: `p` is a proper initial segment of
`q`, as `module` is of `module.core.baseline`. -/
def beneath (p q : Path) : Bool := p.isPrefixOf q && decide (p ≠ q)

/-- Effect of the JavaScript statement `rec.<target> = <value>` on the record.
The property at the target path now holds the value.  What was stored there
before is no longer reachable from `rec`, so nothing that had been set at a
path beneath the target carries over: those paths are unset in the new value,
which is taken to bring no settings of its own.  Every other path is untouched.  Objects along the target path (`rec.module`,
`rec.module.core`) are the ones already in place. -/
def assign (r : Rec) (s : Stmt) : Rec := fun q =>
  if q = s.target then some s.value
  else if beneath s.target q then none
  else r q

/-- Run the statements of a script from first to last on the record `d`
supplied by the host.  Every statement is taken to complete, so this describes
the runs in which the object a nested statement stores into is in place, as it
is once `module` has been assigned, or was already set in `d`, before the
statements beneath it. -/
def run (script : List Stmt) (d : Rec) : Rec := script.foldl assign d

/-- No statement of the list targets a proper prefix of the target of a statement
written before it: an object is assigned before the properties beneath it. -/
def parentFirst (l : List Stmt) : Prop :=
  l.Pairwise (fun a b => beneath b.target a.target = false)

instance parentFirstDecidable (l : List Stmt) : Decidable (parentFirst l) := by
  unfold parentFirst
  infer_instance

/-- The FunkSVD script with `rec.module = ...` moved to the end. -/
def funksvdModuleLast : List Stmt :=
  [ ⟨["name"], .str "FunkSVD"⟩,
    ⟨["module", "core", "baseline"], .ref "org.grouplens.lenskit.baseline.ItemUserMeanPredictor"⟩,
    ⟨["module", "clampingFunction"], .ref "org.grouplens.lenskit.svd.RatingRangeClamp"⟩,
    ⟨["module"], .ref "org.grouplens.lenskit.svd.GradientDescentSVDModule"⟩ ]

/-- The FunkSVD script reordered with `rec.module = ...` first: module, clamping
function, name, baseline. -/
def funksvdModuleFirst : List Stmt :=
  [ ⟨["module"], .ref "org.grouplens.lenskit.svd.GradientDescentSVDModule"⟩,
    ⟨["module", "clampingFunction"], .ref "org.grouplens.lenskit.svd.RatingRangeClamp"⟩,
    ⟨["name"], .str "FunkSVD"⟩,
    ⟨["module", "core", "baseline"], .ref "org.grouplens.lenskit.baseline.ItemUserMeanPredictor"⟩ ]

/-- A default record whose `module` is already the item-item module (the one
that `itemitem.js` assigns and then stores `core.baseline` into) and in which
nothing else is set. -/
def modulePreset : Rec := fun q =>
  if q = ["module"] then some (.ref "org.grouplens.lenskit.knn.item.ItemRecommenderModule")
  else none

/-- A default record in which the host has preset a top-level property `seed`
to 42 and nothing else. -/
def seededDefault : Rec := fun q =>
  if q = ["seed"] then some (.num 42) else none

/-- A default record in which the host has preset `module.core.meanDamping` to 25
and nothing else. -/
def dampedDefault : Rec := fun q =>
  if q = ["module", "core", "meanDamping"] then some (.num 25) else none

/-! ## General facts about running a list of assignments -/

theorem run_nil (d : Rec) : run [] d = d := rfl

theorem run_cons (s : Stmt) (l : List Stmt) (d : Rec) :
    run (s :: l) d = run l (assign d s) := rfl

theorem targets_cons (s : Stmt) (l : List Stmt) :
    targets (s :: l) = s.target :: targets l := rfl

theorem mem_targets_of_mem {s : Stmt} {l : List Stmt} (h : s ∈ l) :
    s.target ∈ targets l :=
  List.mem_map_of_mem Stmt.target h

/-- A path that is neither assigned nor beneath an assigned path keeps the
value of the initial record. -/
theorem run_untouched (l : List Stmt) (d : Rec) (q : Path)
    (h1 : q ∉ targets l) (h2 : ∀ s ∈ l, beneath s.target q = false) :
    run l d q = d q := by
  induction l generalizing d with
  | nil => rfl
  | cons t l ih =>
    rw [targets_cons, List.mem_cons, not_or] at h1
    rw [run_cons, ih (assign d t) h1.2 (fun s hs => h2 s (List.mem_cons_of_mem t hs))]
    have hb : beneath t.target q = false := h2 t (List.mem_cons_self t l)
    simp [assign, h1.1, hb]

/-- A path that is not assigned but lies beneath an assigned path ends up
unset. -/
theorem run_dropped (l : List Stmt) (d : Rec) (q : Path)
    (h1 : q ∉ targets l) (h2 : ∃ s ∈ l, beneath s.target q = true) :
    run l d q = none := by
  induction l generalizing d with
  | nil => obtain ⟨s, hs, _⟩ := h2; cases hs
  | cons t l ih =>
    rw [targets_cons, List.mem_cons, not_or] at h1
    rw [run_cons]
    by_cases h : ∃ s ∈ l, beneath s.target q = true
    · exact ih (assign d t) h1.2 h
    · have hl : ∀ s ∈ l, beneath s.target q = false := by
        intro s hs
        cases hb : beneath s.target q with
        | false => rfl
        | true => exact absurd ⟨s, hs, hb⟩ h
      rw [run_untouched l (assign d t) q h1.2 hl]
      obtain ⟨s, hs, hb⟩ := h2
      rcases List.mem_cons.mp hs with rfl | hs
      · simp [assign, h1.1, hb]
      · exact absurd ⟨s, hs, hb⟩ h

/-- With distinct targets and every object assigned before the properties
beneath it, each assigned path ends up holding its assigned value. -/
theorem run_assigned (l : List Stmt) (d : Rec) (hnd : (targets l).Nodup)
    (hpf : parentFirst l) (s : Stmt) (hs : s ∈ l) :
    run l d s.target = some s.value := by
  induction l generalizing d with
  | nil => cases hs
  | cons t l ih =>
    rw [targets_cons, List.nodup_cons] at hnd
    have hpf2 := List.pairwise_cons.mp hpf
    rw [run_cons]
    rcases List.mem_cons.mp hs with rfl | hs
    · rw [run_untouched l (assign d s) s.target hnd.1 (fun b hb => hpf2.1 b hb)]
      simp [assign]
    · exact ih (assign d t) hnd.2 hpf2.2 hs

/-- Two orderings of the same assignments give the same record when, in both,
targets are distinct and every object is assigned before the properties beneath
it. -/
theorem run_perm (l₁ l₂ : List Stmt) (hp : l₁.Perm l₂) (hnd : (targets l₂).Nodup)
    (h₁ : parentFirst l₁) (h₂ : parentFirst l₂) (d : Rec) :
    run l₁ d = run l₂ d := by
  have hnd1 : (targets l₁).Nodup := (List.Perm.map Stmt.target hp).nodup_iff.mpr hnd
  have hmem : ∀ s, s ∈ l₁ ↔ s ∈ l₂ := fun s => hp.mem_iff
  have htg : ∀ q, q ∈ targets l₁ ↔ q ∈ targets l₂ :=
    fun q => (List.Perm.map Stmt.target hp).mem_iff
  funext q
  by_cases hq : q ∈ targets l₂
  · obtain ⟨s, hs, rfl⟩ := List.mem_map.mp hq
    rw [run_assigned l₂ d hnd h₂ s hs, run_assigned l₁ d hnd1 h₁ s ((hmem s).mpr hs)]
  · have hq1 : q ∉ targets l₁ := fun h => hq ((htg q).mp h)
    by_cases hb : ∃ s ∈ l₂, beneath s.target q = true
    · have hb1 : ∃ s ∈ l₁, beneath s.target q = true := by
        obtain ⟨s, hs, h⟩ := hb
        exact ⟨s, (hmem s).mpr hs, h⟩
      rw [run_dropped l₂ d q hq hb, run_dropped l₁ d q hq1 hb1]
    · have hl2 : ∀ s ∈ l₂, beneath s.target q = false := by
        intro s hs
        cases h : beneath s.target q with
        | false => rfl
        | true => exact absurd ⟨s, hs, h⟩ hb
      have hl1 : ∀ s ∈ l₁, beneath s.target q = false :=
        fun s hs => hl2 s ((hmem s).mp hs)
      rw [run_untouched l₂ d q hq hl2, run_untouched l₁ d q hq1 hl1]

/-- Running such a list a second time changes nothing. -/
theorem run_idem (l : List Stmt) (hnd : (targets l).Nodup) (hpf : parentFirst l)
    (d : Rec) : run l (run l d) = run l d := by
  funext q
  by_cases hq : q ∈ targets l
  · obtain ⟨s, hs, rfl⟩ := List.mem_map.mp hq
    rw [run_assigned l (run l d) hnd hpf s hs, run_assigned l d hnd hpf s hs]
  · by_cases hb : ∃ s ∈ l, beneath s.target q = true
    · rw [run_dropped l (run l d) q hq hb, run_dropped l d q hq hb]
    · have hl : ∀ s ∈ l, beneath s.target q = false := by
        intro s hs
        cases h : beneath s.target q with
        | false => rfl
        | true => exact absurd ⟨s, hs, h⟩ hb
      rw [run_untouched l (run l d) q hq hl]

theorem itemitem_nodup : (targets itemitem).Nodup := by decide

theorem funksvd_nodup : (targets funksvd).Nodup := by decide

theorem itemitem_parentFirst : parentFirst itemitem := by decide

theorem funksvd_parentFirst : parentFirst funksvd := by decide

/-- Every target of either script is `name`, `module`, or a longer path that
starts with `module`. -/
theorem target_shape (script : List Stmt)
    (hs : script = itemitem ∨ script = funksvd) (s : Stmt) (hmem : s ∈ script) :
    s.target = ["name"] ∨ s.target = ["module"] ∨
      ∃ rest, rest ≠ [] ∧ s.target = "module" :: rest := by
  rcases hs with rfl | rfl
  · simp only [itemitem, List.mem_cons, List.mem_singleton, List.not_mem_nil,
      or_false] at hmem
    rcases hmem with rfl | rfl | rfl | rfl
    · exact Or.inl rfl
    · exact Or.inr (Or.inl rfl)
    · exact Or.inr (Or.inr ⟨_, List.cons_ne_nil _ _, rfl⟩)
    · exact Or.inr (Or.inr ⟨_, List.cons_ne_nil _ _, rfl⟩)
  · simp only [funksvd, List.mem_cons, List.mem_singleton, List.not_mem_nil,
      or_false] at hmem
    rcases hmem with rfl | rfl | rfl | rfl
    · exact Or.inl rfl
    · exact Or.inr (Or.inl rfl)
    · exact Or.inr (Or.inr ⟨_, List.cons_ne_nil _ _, rfl⟩)
    · exact Or.inr (Or.inr ⟨_, List.cons_ne_nil _ _, rfl⟩)

/-! ## The two scripts -/

/-- C1: on every host-supplied default record, the item-item script leaves `name`
holding the string "ItemItem", `module` holding the reference to
`ItemRecommenderModule`, `module.knn.similarityDamping` holding 50 and
`module.core.baseline` holding the reference to `ItemUserMeanPredictor`. -/
theorem itemitem_assigned_values (d : Rec) :
    run itemitem d ["name"] = some (.str "ItemItem") ∧
    run itemitem d ["module"]
      = some (.ref "org.grouplens.lenskit.knn.item.ItemRecommenderModule") ∧
    run itemitem d ["module", "knn", "similarityDamping"] = some (.num 50) ∧
    run itemitem d ["module", "core", "baseline"]
      = some (.ref "org.grouplens.lenskit.baseline.ItemUserMeanPredictor") :=
  ⟨rfl, rfl, rfl, rfl⟩

/-- C2: on every host-supplied default record, the FunkSVD script leaves `name`
holding the string "FunkSVD", `module` holding the reference to
`GradientDescentSVDModule`, `module.core.baseline` holding the reference to
`ItemUserMeanPredictor` and `module.clampingFunction` holding the reference to
`RatingRangeClamp`. -/
theorem funksvd_assigned_values (d : Rec) :
    run funksvd d ["name"] = some (.str "FunkSVD") ∧
    run funksvd d ["module"]
      = some (.ref "org.grouplens.lenskit.svd.GradientDescentSVDModule") ∧
    run funksvd d ["module", "core", "baseline"]
      = some (.ref "org.grouplens.lenskit.baseline.ItemUserMeanPredictor") ∧
    run funksvd d ["module", "clampingFunction"]
      = some (.ref "org.grouplens.lenskit.svd.RatingRangeClamp") :=
  ⟨rfl, rfl, rfl, rfl⟩

/-- C3 as stated fails: `module.core.meanDamping` is not assigned by the FunkSVD
script, the default record holds 25 there, and after the script the path is
unset, because `rec.module = ...` replaced the module object. -/
theorem funksvd_resets_meanDamping :
    ["module", "core", "meanDamping"] ∉ targets funksvd ∧
    dampedDefault ["module", "core", "meanDamping"] = some (.num 25) ∧
    run funksvd dampedDefault ["module", "core", "meanDamping"] = none :=
  ⟨by decide, rfl, rfl⟩

/-- C3, amended: for either script and every default record, a path that the
script does not assign and that does not lie beneath a path the script assigns
holds after the script exactly the value the default record holds there. -/
theorem unassigned_path_retained (script : List Stmt)
    (hs : script = itemitem ∨ script = funksvd) (d : Rec) (p : Path)
    (hp : p ∉ targets script)
    (hb : ∀ t ∈ targets script, beneath t p = false) :
    run script d p = d p := by
  rcases hs with rfl | rfl
  · exact run_untouched itemitem d p hp
      (fun s hmem => hb s.target (mem_targets_of_mem hmem))
  · exact run_untouched funksvd d p hp
      (fun s hmem => hb s.target (mem_targets_of_mem hmem))

/-- The amended frame property at a concrete input: the FunkSVD script on the
default record that presets `seed` to 42 still holds 42 at `seed`. -/
theorem unassigned_path_retained_witness :
    (funksvd = itemitem ∨ funksvd = funksvd) ∧
    ["seed"] ∉ targets funksvd ∧
    (∀ t ∈ targets funksvd, beneath t ["seed"] = false) ∧
    seededDefault ["seed"] = some (.num 42) ∧
    run funksvd seededDefault ["seed"] = seededDefault ["seed"] :=
  ⟨Or.inr rfl, by decide, by decide, rfl,
    unassigned_path_retained funksvd (Or.inr rfl) seededDefault ["seed"]
      (by decide) (by decide)⟩

/-- C4 as stated fails: moving `rec.module = ...` to the end of the FunkSVD
script is a permutation of its statements, and on the default record whose
`module` is already the item-item module it yields a different record: the
clamping function and the baseline were stored into the module that is then
replaced, so `module.clampingFunction` and `module.core.baseline` of the final
`module` do not hold them, while the written order leaves both set. -/
theorem funksvd_module_last_changes_record :
    List.Perm funksvdModuleLast funksvd ∧
    run funksvdModuleLast modulePreset ["module"]
      = some (.ref "org.grouplens.lenskit.svd.GradientDescentSVDModule") ∧
    run funksvdModuleLast modulePreset ["module", "clampingFunction"] = none ∧
    run funksvdModuleLast modulePreset ["module", "core", "baseline"] = none ∧
    run funksvd modulePreset ["module", "clampingFunction"]
      = some (.ref "org.grouplens.lenskit.svd.RatingRangeClamp") ∧
    run funksvd modulePreset ["module", "core", "baseline"]
      = some (.ref "org.grouplens.lenskit.baseline.ItemUserMeanPredictor") ∧
    run funksvdModuleLast modulePreset ≠ run funksvd modulePreset := by
  refine ⟨by decide, rfl, rfl, rfl, rfl, rfl, ?_⟩
  intro h
  have h2 := congrFun h ["module", "clampingFunction"]
  exact absurd h2 (by decide)

/-- C4, amended: for either script, every default record and every permutation
of the script's statements that keeps each object assigned before the
properties beneath it, that is, `module` before the `module.` paths, the
permuted sequence yields the same record as the written order. -/
theorem order_irrelevant_of_parentFirst (script : List Stmt)
    (hs : script = itemitem ∨ script = funksvd) (l : List Stmt)
    (hp : l.Perm script) (hl : parentFirst l) (d : Rec) :
    run l d = run script d := by
  rcases hs with rfl | rfl
  · exact run_perm l itemitem hp itemitem_nodup hl itemitem_parentFirst d
  · exact run_perm l funksvd hp funksvd_nodup hl funksvd_parentFirst d

/-- The amended order property at a concrete input: the FunkSVD script reordered
as module, clamping function, name, baseline, on the default record whose
`module` is already set. -/
theorem order_irrelevant_of_parentFirst_witness :
    (funksvd = itemitem ∨ funksvd = funksvd) ∧
    List.Perm funksvdModuleFirst funksvd ∧
    parentFirst funksvdModuleFirst ∧
    funksvdModuleFirst ≠ funksvd ∧
    run funksvdModuleFirst modulePreset = run funksvd modulePreset :=
  ⟨Or.inr rfl, by decide, by decide, by decide,
    order_irrelevant_of_parentFirst funksvd (Or.inr rfl) funksvdModuleFirst
      (by decide) (by decide) modulePreset⟩

/-- C5: within each script, no path is the target of more than one assignment
statement. -/
theorem script_targets_nodup :
    (targets itemitem).Nodup ∧ (targets funksvd).Nodup :=
  ⟨by decide, by decide⟩

/-- C6 as stated fails: the value assigned to `name` is a quoted string literal
in both scripts, neither a component reference nor a number. -/
theorem name_value_is_string_literal :
    (⟨["name"], .str "ItemItem"⟩ : Stmt) ∈ itemitem ∧
    (⟨["name"], .str "FunkSVD"⟩ : Stmt) ∈ funksvd ∧
    (Value.str "ItemItem").isComponentRef = false ∧
    (Value.str "ItemItem").isNumeric = false ∧
    (Value.str "FunkSVD").isComponentRef = false ∧
    (Value.str "FunkSVD").isNumeric = false :=
  ⟨by decide, by decide, rfl, rfl, rfl, rfl⟩

/-- C6, amended: in either script, the value assigned to `name` is a string
literal, and every value assigned to another path is a component reference or a
number. -/
theorem assigned_value_kinds (script : List Stmt)
    (hs : script = itemitem ∨ script = funksvd) (s : Stmt) (hmem : s ∈ script) :
    (s.target = ["name"] → s.value.isStringLiteral = true) ∧
    (s.target ≠ ["name"] →
      s.value.isComponentRef = true ∨ s.value.isNumeric = true) := by
  rcases hs with rfl | rfl
  · simp only [itemitem, List.mem_cons, List.mem_singleton, List.not_mem_nil,
      or_false] at hmem
    rcases hmem with rfl | rfl | rfl | rfl
    · exact ⟨fun _ => rfl, fun h => absurd rfl h⟩
    · exact ⟨fun h => absurd h (by decide), fun _ => Or.inl rfl⟩
    · exact ⟨fun h => absurd h (by decide), fun _ => Or.inr rfl⟩
    · exact ⟨fun h => absurd h (by decide), fun _ => Or.inl rfl⟩
  · simp only [funksvd, List.mem_cons, List.mem_singleton, List.not_mem_nil,
      or_false] at hmem
    rcases hmem with rfl | rfl | rfl | rfl
    · exact ⟨fun _ => rfl, fun h => absurd rfl h⟩
    · exact ⟨fun h => absurd h (by decide), fun _ => Or.inl rfl⟩
    · exact ⟨fun h => absurd h (by decide), fun _ => Or.inl rfl⟩
    · exact ⟨fun h => absurd h (by decide), fun _ => Or.inl rfl⟩

/-- The amended value-kind property at a concrete input: the similarity-damping
statement of the item-item script. -/
theorem assigned_value_kinds_witness :
    (itemitem = itemitem ∨ itemitem = funksvd) ∧
    (⟨["module", "knn", "similarityDamping"], .num 50⟩ : Stmt) ∈ itemitem ∧
    ((["module", "knn", "similarityDamping"] = ["name"] →
        (Value.num 50).isStringLiteral = true) ∧
      (["module", "knn", "similarityDamping"] ≠ ["name"] →
        (Value.num 50).isComponentRef = true ∨ (Value.num 50).isNumeric = true)) :=
  ⟨Or.inl rfl, by decide,
    assigned_value_kinds itemitem (Or.inl rfl)
      ⟨["module", "knn", "similarityDamping"], .num 50⟩ (by decide)⟩

/-- C7: every path assigned by either script is `name`, or `module`, or a longer
dotted path whose first segment is `module`; no other top-level key of the
configuration object is assigned. -/
theorem assigned_paths_in_vocabulary (script : List Stmt)
    (hs : script = itemitem ∨ script = funksvd) (s : Stmt) (hmem : s ∈ script) :
    s.target = ["name"] ∨ s.target = ["module"] ∨
      ∃ rest, rest ≠ [] ∧ s.target = "module" :: rest :=
  target_shape script hs s hmem

/-- The path vocabulary property at a concrete input: the clamping-function
statement of the FunkSVD script. -/
theorem assigned_paths_in_vocabulary_witness :
    (funksvd = itemitem ∨ funksvd = funksvd) ∧
    (⟨["module", "clampingFunction"],
        .ref "org.grouplens.lenskit.svd.RatingRangeClamp"⟩ : Stmt) ∈ funksvd ∧
    (["module", "clampingFunction"] = ["name"] ∨
      ["module", "clampingFunction"] = ["module"] ∨
      ∃ rest, rest ≠ [] ∧ ["module", "clampingFunction"] = "module" :: rest) :=
  ⟨Or.inr rfl, by decide,
    assigned_paths_in_vocabulary funksvd (Or.inr rfl)
      ⟨["module", "clampingFunction"], .ref "org.grouplens.lenskit.svd.RatingRangeClamp"⟩
      (by decide)⟩

/-- C8: in either script as written, the assignment to `module` stands before
every assignment to a path beneath `module`, and, with the assignment to
`module` replacing the module object, every such nested path still holds the
value the script gave it in the final record, on every default record. -/
theorem module_precedes_nested (script : List Stmt)
    (hs : script = itemitem ∨ script = funksvd) (s : Stmt) (hmem : s ∈ script)
    (hb : beneath ["module"] s.target = true) :
    (targets script).indexOf ["module"] < (targets script).indexOf s.target ∧
    ∀ d : Rec, run script d s.target = some s.value := by
  rcases hs with rfl | rfl
  · refine ⟨?_, fun d => run_assigned itemitem d itemitem_nodup itemitem_parentFirst s hmem⟩
    simp only [itemitem, List.mem_cons, List.mem_singleton, List.not_mem_nil,
      or_false] at hmem
    rcases hmem with rfl | rfl | rfl | rfl
    · exact absurd hb (by decide)
    · exact absurd hb (by decide)
    · decide
    · decide
  · refine ⟨?_, fun d => run_assigned funksvd d funksvd_nodup funksvd_parentFirst s hmem⟩
    simp only [funksvd, List.mem_cons, List.mem_singleton, List.not_mem_nil,
      or_false] at hmem
    rcases hmem with rfl | rfl | rfl | rfl
    · exact absurd hb (by decide)
    · exact absurd hb (by decide)
    · decide
    · decide

/-- The ordering property at a concrete input: the baseline statement of the
FunkSVD script. -/
theorem module_precedes_nested_witness :
    (funksvd = itemitem ∨ funksvd = funksvd) ∧
    (⟨["module", "core", "baseline"],
        .ref "org.grouplens.lenskit.baseline.ItemUserMeanPredictor"⟩ : Stmt) ∈ funksvd ∧
    beneath ["module"] ["module", "core", "baseline"] = true ∧
    ((targets funksvd).indexOf ["module"]
        < (targets funksvd).indexOf ["module", "core", "baseline"] ∧
      ∀ d : Rec, run funksvd d ["module", "core", "baseline"]
        = some (.ref "org.grouplens.lenskit.baseline.ItemUserMeanPredictor")) :=
  ⟨Or.inr rfl, by decide, by decide,
    module_precedes_nested funksvd (Or.inr rfl)
      ⟨["module", "core", "baseline"],
        .ref "org.grouplens.lenskit.baseline.ItemUserMeanPredictor"⟩
      (by decide) (by decide)⟩

/-- C9: for either script and every default record, running the script on the
record it produced yields that same record again. -/
theorem run_script_idempotent :
    (∀ d : Rec, run itemitem (run itemitem d) = run itemitem d) ∧
    (∀ d : Rec, run funksvd (run funksvd d) = run funksvd d) :=
  ⟨fun d => run_idem itemitem itemitem_nodup itemitem_parentFirst d,
    fun d => run_idem funksvd funksvd_nodup funksvd_parentFirst d⟩

end LensKit
